import Mathlib

/-!
Verification of the networking core `src/net.rs`: traits abstracting over
listeners, acceptors and streams, the erased `Box<NetworkStream + Send>`
handle, the write-status marker types, and the concrete TCP adapter
(`HttpListener` / `HttpAcceptor` / `HttpStream`).

The adapter types and every trait impl are embedded from the source.  The
platform TCP primitives (`TcpListener`, `TcpAcceptor`, `TcpStream` of
`std::io::net::tcp`) are not part of this repository; where a claim depends
on their behaviour they are modelled from the spec, with explicit state
passing through a `World` value that holds the shared listening and
connection resources.
-/

namespace HyperNet

/-- Kinds of I/O errors surfaced by the underlying platform primitives
(`std::io::IoError`); only the identity of the error matters to the
adapter, which forwards it unchanged. -/
inductive IoErrorKind : Type
  | endOfFile
  | connectionRefused
  | connectionReset
  | connectionAborted
  | notConnected
  | permissionDenied
  | addrInUse
  | invalidInput
  | otherError (code : Nat)
  deriving DecidableEq, Repr

/-- An I/O error value (`std::io::IoError`), identified by its kind. -/
structure IoError where
  kind : IoErrorKind
  deriving DecidableEq, Repr

/-- Embedding of `IoResult<T>`: either a value or an `IoError`. -/
abbrev IoResult (α : Type) : Type := Except IoError α

/-- A socket address (`std::io::net::ip::SocketAddr`): ip plus port.
`Port` is `u16`; ports are embedded as `Nat`, validity (`< 65536`) is a
hypothesis where a claim needs it. -/
structure SocketAddr where
  ip : String
  port : Nat
  deriving DecidableEq, Repr

/-! ## Write-status markers

`pub struct Fresh;` and `pub struct Streaming;` are zero-field unit
structs; `trait WriteStatus: Private` is implemented for exactly these two
types, and the supertrait `Private` is private to the module, so no
external crate can implement `WriteStatus` for anything else.  The set of
impls declared in the crate is therefore closed and is embedded as a
closed inductive family over `Type`. -/

/-- The write-status indicating headers have not been written
(`pub struct Fresh;`, a unit struct). -/
inductive Fresh : Type
  | mk : Fresh
  deriving DecidableEq, Repr

/-- The write-status indicating headers have been written
(`pub struct Streaming;`, a unit struct). -/
inductive Streaming : Type
  | mk : Streaming
  deriving DecidableEq, Repr

/-- The private supertrait: `trait Private {}` with
`impl Private for Fresh {}` and `impl Private for Streaming {}` as the
only impls (the trait is not `pub`, so no others can exist). -/
inductive Private : Type → Prop
  | fresh : Private Fresh
  | streaming : Private Streaming

/-- The impls of `WriteStatus` declared in the crate:
`impl WriteStatus for Fresh {}` and `impl WriteStatus for Streaming {}`. -/
inductive WriteStatusImpl : Type → Prop
  | fresh : WriteStatusImpl Fresh
  | streaming : WriteStatusImpl Streaming

/-- Embedding of `pub trait WriteStatus: Private {}`: a type implements
`WriteStatus` when an impl was declared for it and it satisfies the
private supertrait bound. -/
def WriteStatus (T : Type) : Prop := WriteStatusImpl T ∧ Private T

/-! ## Spec-modelled platform TCP layer

The concrete TCP implementation is outside this repository (the spec lists
it among external collaborators).  It is modelled from the spec: resources
(listening sockets, connections) live in a `World`; handles are indices
into it, so duplicated handles share the resource; every primitive call
bumps a `sysCalls` counter, instrumenting how often the adapter invokes
the platform. -/

/-- Modelled from the spec: the live listening resource behind a
`TcpAcceptor`.  Shared by all duplicated acceptor handles; `close`
deactivates it, pending peers are the connections waiting to be
accepted. -/
structure AcceptorRes where
  closed : Bool
  pending : List SocketAddr
  deriving DecidableEq, Repr

/-- Modelled from the spec: the connection resource behind a `TcpStream`,
shared by all duplicated stream handles.  `inBuf` holds bytes available to
read, `outBuf` the bytes written so far (bytes are `u8`, embedded as
`Nat`). -/
structure TcpConnRes where
  peer : SocketAddr
  inBuf : List Nat
  outBuf : List Nat
  deriving DecidableEq, Repr

/-- Modelled from the spec: the state of the platform TCP stack — the
listening resources, the connection resources, and an instrumentation
counter of how many primitive calls have been made. -/
structure World where
  acceptors : List AcceptorRes
  conns : List TcpConnRes
  sysCalls : Nat
  deriving DecidableEq, Repr

/-- The observable part of the world: everything except the
instrumentation counter. -/
def World.obs (w : World) : List AcceptorRes × List TcpConnRes :=
  (w.acceptors, w.conns)

/-- Bump the instrumentation counter: one platform primitive call. -/
def World.bump (w : World) : World :=
  { w with sysCalls := w.sysCalls + 1 }

/-- Modelled from the spec: a bound-but-not-listening TCP socket
(`std::io::net::tcp::TcpListener`); it holds its resolved bound
address. -/
structure TcpListener where
  addr : SocketAddr
  deriving DecidableEq, Repr

/-- Modelled from the spec: a handle to a live listening resource
(`std::io::net::tcp::TcpAcceptor`); the resource itself lives in the
`World`, so cloned handles share it. -/
structure TcpAcceptor where
  id : Nat
  deriving DecidableEq, Repr

/-- Modelled from the spec: a handle to a connection resource
(`std::io::net::tcp::TcpStream`); the resource lives in the `World`, so
cloned handles share the connection. -/
structure TcpStream where
  id : Nat
  deriving DecidableEq, Repr

/-- Modelled from the spec: the environment deciding the platform's
answers to `bind` / `listen` / `connect` — which calls fail with which
error, which ephemeral port a port-0 bind is assigned, and the peer
address a client connection gets. -/
structure TcpEnv where
  bindError : String → Nat → Option IoError
  ephemeralPort : String → Nat
  listenError : SocketAddr → Option IoError
  connectError : String → Nat → Option IoError
  connectPeer : String → Nat → SocketAddr

/-- Outcome of a call that may block the calling thread (`accept`, `read`):
a value, an error, or no return yet. -/
inductive Outcome (α : Type) : Type
  | ok (a : α)
  | err (e : IoError)
  | blocks
  deriving DecidableEq, Repr

/-- Mapping the value of an `Outcome`, as the adapter's `try!` + wrap does
after a blocking call returns. -/
def Outcome.map {α β : Type} (f : α → β) : Outcome α → Outcome β
  | .ok a => .ok (f a)
  | .err e => .err e
  | .blocks => .blocks

/-- The distinguished error returned by `accept` once the acceptor has
been closed (kind `EndOfFile`), as opposed to a transient I/O error. -/
def acceptorClosedError : IoError := ⟨.endOfFile⟩

/-- Modelled from the spec: `TcpListener::bind(host, port)` reserves the
address; with port 0 the platform assigns the ephemeral port of the
environment. -/
def TcpListener.bind (env : TcpEnv) (w : World) (host : String) (port : Nat) :
    World × IoResult TcpListener :=
  match env.bindError host port with
  | some e => (w.bump, .error e)
  | none =>
    (w.bump, .ok ⟨⟨host, if port = 0 then env.ephemeralPort host else port⟩⟩)

/-- Modelled from the spec: `TcpListener::listen(self)` transitions the
reservation into a live listening resource, yielding a fresh acceptor
handle to it. -/
def TcpListener.listen (env : TcpEnv) (w : World) (l : TcpListener) :
    World × IoResult TcpAcceptor :=
  match env.listenError l.addr with
  | some e => (w.bump, .error e)
  | none =>
    ({ w.bump with acceptors := w.acceptors ++ [⟨false, []⟩] },
     .ok ⟨w.acceptors.length⟩)

/-- Modelled from the spec: `TcpListener::socket_name` reports the actual
bound address. -/
def TcpListener.socket_name (w : World) (l : TcpListener) :
    World × IoResult SocketAddr :=
  (w.bump, .ok l.addr)

/-- Modelled from the spec: `TcpAcceptor::accept` returns the closed error
once the shared resource is closed, otherwise takes the next pending
connection, creating a fresh connection resource, or blocks when none is
pending. -/
def TcpAcceptor.accept (w : World) (a : TcpAcceptor) :
    World × Outcome TcpStream :=
  match w.acceptors[a.id]? with
  | none => (w.bump, .err ⟨.notConnected⟩)
  | some res =>
    if res.closed then (w.bump, .err acceptorClosedError)
    else
      match res.pending with
      | [] => (w.bump, .blocks)
      | peer :: rest =>
        ({ w.bump with
           acceptors := w.acceptors.set a.id { res with pending := rest },
           conns := w.conns ++ [⟨peer, [], []⟩] },
         .ok ⟨w.conns.length⟩)

/-- Modelled from the spec: `TcpAcceptor::close_accept` marks the shared
listening resource closed; already-accepted connections are untouched. -/
def TcpAcceptor.close_accept (w : World) (a : TcpAcceptor) :
    World × IoResult Unit :=
  match w.acceptors[a.id]? with
  | none => (w.bump, .ok ())
  | some res =>
    ({ w.bump with acceptors := w.acceptors.set a.id { res with closed := true } },
     .ok ())

/-- Modelled from the spec: cloning a `TcpAcceptor` yields another handle
to the same listening resource. -/
def TcpAcceptor.clone (a : TcpAcceptor) : TcpAcceptor := a

/-- Modelled from the spec: cloning a `TcpStream` yields another handle to
the same connection resource. -/
def TcpStream.clone (s : TcpStream) : TcpStream := s

/-- Modelled from the spec: `TcpStream::connect(host, port)` opens a new
connection resource, or fails per the environment. -/
def TcpStream.connect (env : TcpEnv) (w : World) (host : String) (port : Nat) :
    World × IoResult TcpStream :=
  match env.connectError host port with
  | some e => (w.bump, .error e)
  | none =>
    ({ w.bump with conns := w.conns ++ [⟨env.connectPeer host port, [], []⟩] },
     .ok ⟨w.conns.length⟩)

/-- Modelled from the spec: `read` on a `TcpStream` returns available
bytes (up to the buffer capacity `n`), blocks when none are available. -/
def TcpStream.read (w : World) (s : TcpStream) (n : Nat) :
    World × Outcome (List Nat) :=
  match w.conns[s.id]? with
  | none => (w.bump, .err ⟨.notConnected⟩)
  | some c =>
    if c.inBuf.isEmpty then (w.bump, .blocks)
    else
      ({ w.bump with conns := w.conns.set s.id { c with inBuf := c.inBuf.drop n } },
       .ok (c.inBuf.take n))

/-- Modelled from the spec: `write` on a `TcpStream` appends the bytes to
the shared connection's outgoing stream. -/
def TcpStream.write (w : World) (s : TcpStream) (msg : List Nat) :
    World × IoResult Unit :=
  match w.conns[s.id]? with
  | none => (w.bump, .error ⟨.notConnected⟩)
  | some c =>
    ({ w.bump with conns := w.conns.set s.id { c with outBuf := c.outBuf ++ msg } },
     .ok ())

/-- Modelled from the spec: `flush` forces buffered bytes out; the model
buffers nothing between `write` and the connection, so it succeeds
without changing the connection. -/
def TcpStream.flush (w : World) (s : TcpStream) : World × IoResult Unit :=
  (w.bump, .ok ())

/-- Modelled from the spec: `peer_name` on a `TcpStream` reports the
remote endpoint of the shared connection. -/
def TcpStream.peer_name (w : World) (s : TcpStream) :
    World × IoResult SocketAddr :=
  match w.conns[s.id]? with
  | none => (w.bump, .error ⟨.notConnected⟩)
  | some c => (w.bump, .ok c.peer)

/-! ## The concrete TCP adapter (from the source)

`HttpListener`, `HttpAcceptor` and `HttpStream` wrap the corresponding
TCP primitive in a one-field struct; every method delegates to the inner
value, wrapping constructor results through `try!` and forwarding errors
unchanged. -/

/-- Source: `pub struct HttpListener { inner: TcpListener }` -/
structure HttpListener where
  inner : TcpListener
  deriving DecidableEq, Repr

/-- Source: `pub struct HttpAcceptor { inner: TcpAcceptor }` -/
structure HttpAcceptor where
  inner : TcpAcceptor
  deriving DecidableEq, Repr

/-- Source: `pub struct HttpStream { inner: TcpStream }` -/
structure HttpStream where
  inner : TcpStream
  deriving DecidableEq, Repr

/-- Source: `fn bind(host, port) { Ok(HttpListener { inner: try!(TcpListener::bind(host, port)) }) }` -/
def HttpListener.bind (env : TcpEnv) (w : World) (host : String) (port : Nat) :
    World × IoResult HttpListener :=
  let p := TcpListener.bind env w host port
  (p.1, p.2.map HttpListener.mk)

/-- Source: `fn listen(self) { Ok(HttpAcceptor { inner: try!(self.inner.listen()) }) }` -/
def HttpListener.listen (env : TcpEnv) (w : World) (l : HttpListener) :
    World × IoResult HttpAcceptor :=
  let p := TcpListener.listen env w l.inner
  (p.1, p.2.map HttpAcceptor.mk)

/-- Source: `fn socket_name(&mut self) { self.inner.socket_name() }` -/
def HttpListener.socket_name (w : World) (l : HttpListener) :
    World × IoResult SocketAddr :=
  TcpListener.socket_name w l.inner

/-- Source: `fn accept(&mut self) { Ok(HttpStream { inner: try!(self.inner.accept()) }) }` -/
def HttpAcceptor.accept (w : World) (a : HttpAcceptor) :
    World × Outcome HttpStream :=
  let p := TcpAcceptor.accept w a.inner
  (p.1, p.2.map HttpStream.mk)

/-- Source: `fn close(&mut self) { self.inner.close_accept() }` -/
def HttpAcceptor.close (w : World) (a : HttpAcceptor) : World × IoResult Unit :=
  TcpAcceptor.close_accept w a.inner

/-- Source: `#[deriving(Clone)]` on `HttpAcceptor`: clone the inner handle. -/
def HttpAcceptor.clone (a : HttpAcceptor) : HttpAcceptor :=
  ⟨a.inner.clone⟩

/-- Source: `#[deriving(Clone)]` on `HttpStream`: clone the inner handle. -/
def HttpStream.clone (s : HttpStream) : HttpStream :=
  ⟨s.inner.clone⟩

/-- Source: `fn read(&mut self, buf) { self.inner.read(buf) }` -/
def HttpStream.read (w : World) (s : HttpStream) (n : Nat) :
    World × Outcome (List Nat) :=
  TcpStream.read w s.inner n

/-- Source: `fn write(&mut self, msg) { self.inner.write(msg) }` -/
def HttpStream.write (w : World) (s : HttpStream) (msg : List Nat) :
    World × IoResult Unit :=
  TcpStream.write w s.inner msg

/-- Source: `fn flush(&mut self) { self.inner.flush() }` -/
def HttpStream.flush (w : World) (s : HttpStream) : World × IoResult Unit :=
  TcpStream.flush w s.inner

/-- Source: `fn peer_name(&mut self) { self.inner.peer_name() }` -/
def HttpStream.peer_name (w : World) (s : HttpStream) :
    World × IoResult SocketAddr :=
  TcpStream.peer_name w s.inner

/-- Source: `fn connect(host, port) { Ok(HttpStream { inner: try!(TcpStream::connect(host, port)) }) }` -/
def HttpStream.connect (env : TcpEnv) (w : World) (host : String) (port : Nat) :
    World × IoResult HttpStream :=
  let p := TcpStream.connect env w host port
  (p.1, p.2.map HttpStream.mk)

/-! ## The erased stream handle (from the source)

`trait NetworkStream: Stream + Clone + Send` is a dictionary of the
duplex-channel operations plus `peer_name` and `clone`; a trait object
`Box<NetworkStream + Send>` packs a concrete carrier type together with
its dictionary and a value.  Each operation of a stream may mutate the
stream, so it returns the new carrier state along with its result. -/

/-- The method dictionary of `NetworkStream` for a concrete carrier type
`σ`: `read` / `write` / `flush` (the `Stream` supertrait), `peer_name`,
and the `Clone` supertrait's duplication. -/
structure NetworkStreamOps (σ : Type) where
  read : σ → Nat → σ × Outcome (List Nat)
  write : σ → List Nat → σ × IoResult Unit
  flush : σ → σ × IoResult Unit
  peer_name : σ → σ × IoResult SocketAddr
  clone : σ → σ

/-- The trait object `Box<NetworkStream + Send>`: an erased carrier type,
its method dictionary, and the wrapped value. -/
structure BoxNetworkStream : Type 1 where
  Carrier : Type
  ops : NetworkStreamOps Carrier
  val : Carrier

/-- Source: `fn abstract(self) -> Box<NetworkStream + Send> { box self as Box<NetworkStream + Send> }`:
erase a concrete stream into the uniform handle. -/
def NetworkStreamOps.abstract {σ : Type} (ops : NetworkStreamOps σ) (s : σ) :
    BoxNetworkStream :=
  ⟨σ, ops, s⟩

/-- Default method `fn clone_box(&self) { self.clone().abstract() }`:
duplicate the concrete stream, then erase the duplicate. -/
def NetworkStreamOps.clone_box {σ : Type} (ops : NetworkStreamOps σ) (s : σ) :
    BoxNetworkStream :=
  ops.abstract (ops.clone s)

/-- Source: `impl Clone for Box<NetworkStream + Send> { fn clone(&self) { self.clone_box() } }`:
dynamic dispatch to the wrapped value's `clone_box`. -/
def BoxNetworkStream.clone (b : BoxNetworkStream) : BoxNetworkStream :=
  b.ops.clone_box b.val

/-- Source: `impl Reader for Box<NetworkStream + Send> { fn read(&mut self, buf) { self.read(buf) } }`:
dynamic dispatch to the wrapped value's `read`; the box afterwards holds
the wrapped value's new state. -/
def BoxNetworkStream.read (b : BoxNetworkStream) (n : Nat) :
    BoxNetworkStream × Outcome (List Nat) :=
  (⟨b.Carrier, b.ops, (b.ops.read b.val n).1⟩, (b.ops.read b.val n).2)

/-- Source: `impl Writer for Box<NetworkStream + Send> { fn write(&mut self, msg) { self.write(msg) } }` -/
def BoxNetworkStream.write (b : BoxNetworkStream) (msg : List Nat) :
    BoxNetworkStream × IoResult Unit :=
  (⟨b.Carrier, b.ops, (b.ops.write b.val msg).1⟩, (b.ops.write b.val msg).2)

/-- Source: `fn flush(&mut self) { self.flush() }` on the box: dynamic dispatch to
the wrapped value's `flush`. -/
def BoxNetworkStream.flush (b : BoxNetworkStream) :
    BoxNetworkStream × IoResult Unit :=
  (⟨b.Carrier, b.ops, (b.ops.flush b.val).1⟩, (b.ops.flush b.val).2)

/-- A concrete platform environment in which every bind/listen/connect
succeeds and every port-0 bind is assigned ephemeral port 50000; used to
instantiate theorems at concrete inputs. -/
def defaultTcpEnv : TcpEnv :=
  ⟨fun _ _ => none, fun _ => 50000, fun _ => none, fun _ _ => none,
   fun _ _ => ⟨"", 0⟩⟩

/-! ## Theorems -/

/-- Claim C5: the WriteStatus contract is sealed and exhaustive — a type
implements `WriteStatus` exactly when it is `Fresh` or `Streaming`, and
both markers carry no data (any two values of each are equal). -/
theorem write_status_sealed_exhaustive :
    (∀ T : Type, WriteStatus T ↔ (T = Fresh ∨ T = Streaming)) ∧
    (∀ x y : Fresh, x = y) ∧ (∀ x y : Streaming, x = y) := by
  refine ⟨fun T => ⟨?_, ?_⟩, ?_, ?_⟩
  · rintro ⟨h, -⟩
    cases h
    · exact Or.inl rfl
    · exact Or.inr rfl
  · rintro (rfl | rfl)
    · exact ⟨WriteStatusImpl.fresh, Private.fresh⟩
    · exact ⟨WriteStatusImpl.streaming, Private.streaming⟩
  · rintro ⟨⟩ ⟨⟩
    rfl
  · rintro ⟨⟩ ⟨⟩
    rfl

/-- Claim C1: the erased handle delegates its duplex-channel operations to
the wrapped concrete value — `read`, `write` and `flush` on
`Box<NetworkStream + Send>` return exactly the wrapped stream's result,
and the box afterwards wraps the stream's new state. -/
theorem erased_handle_delegates_io (σ : Type) (ops : NetworkStreamOps σ)
    (s : σ) (n : Nat) (msg : List Nat) :
    BoxNetworkStream.read (ops.abstract s) n =
      (ops.abstract (ops.read s n).1, (ops.read s n).2) ∧
    BoxNetworkStream.write (ops.abstract s) msg =
      (ops.abstract (ops.write s msg).1, (ops.write s msg).2) ∧
    BoxNetworkStream.flush (ops.abstract s) =
      (ops.abstract (ops.flush s).1, (ops.flush s).2) :=
  ⟨rfl, rfl, rfl⟩

/-- Claim C2: cloning the erased handle goes through the wrapped value's
own `clone_box`, which duplicates the concrete stream and erases the
duplicate — it is not a copy of the box mechanism itself. -/
theorem erased_clone_uses_clone_box (b : BoxNetworkStream) :
    BoxNetworkStream.clone b = b.ops.clone_box b.val ∧
    BoxNetworkStream.clone b = b.ops.abstract (b.ops.clone b.val) :=
  ⟨rfl, rfl⟩

/-- Claim C9: erasure and duplication commute — cloning the erased handle
obtained from `abstract s` equals erasing the clone of `s`. -/
theorem clone_abstract_commute (σ : Type) (ops : NetworkStreamOps σ)
    (s : σ) :
    BoxNetworkStream.clone (ops.abstract s) = ops.abstract (ops.clone s) :=
  rfl

/-- Claim C7: duplicating an `HttpStream` handle shares the same
underlying connection — the clone references the same connection
resource, and every duplex-channel operation through the clone is
identical to the same operation through the original handle. -/
theorem stream_clone_shares_connection (w : World) (s : HttpStream)
    (msg : List Nat) (n : Nat) :
    (HttpStream.clone s).inner.id = s.inner.id ∧
    HttpStream.clone s = s ∧
    HttpStream.write w (HttpStream.clone s) msg = HttpStream.write w s msg ∧
    HttpStream.read w (HttpStream.clone s) n = HttpStream.read w s n ∧
    HttpStream.flush w (HttpStream.clone s) = HttpStream.flush w s ∧
    HttpStream.peer_name w (HttpStream.clone s) = HttpStream.peer_name w s :=
  ⟨rfl, rfl, rfl, rfl, rfl, rfl⟩

/-- Wrapping an `IoResult` through an injective constructor yields the
wrapped `ok` exactly when the primitive returned `ok`. -/
theorem except_map_ok_iff {α β : Type} (f : α → β)
    (hf : Function.Injective f) (r : IoResult α) (v : α) :
    r.map f = .ok (f v) ↔ r = .ok v := by
  cases r <;> simp [Except.map, hf.eq_iff]

/-- Wrapping an `IoResult` never alters the error case: the wrapped result
is a given error exactly when the primitive result is. -/
theorem except_map_error_iff {α β : Type} (f : α → β) (r : IoResult α)
    (e : IoError) :
    r.map f = .error e ↔ r = .error e := by
  cases r <;> simp [Except.map]

/-- Wrapping a blocking-call `Outcome` through an injective constructor
yields the wrapped `ok` exactly when the primitive returned `ok`. -/
theorem outcome_map_ok_iff {α β : Type} (f : α → β)
    (hf : Function.Injective f) (r : Outcome α) (v : α) :
    r.map f = .ok (f v) ↔ r = .ok v := by
  cases r <;> simp [Outcome.map, hf.eq_iff]

/-- Wrapping a blocking-call `Outcome` never alters the error case. -/
theorem outcome_map_err_iff {α β : Type} (f : α → β) (r : Outcome α)
    (e : IoError) :
    r.map f = .err e ↔ r = .err e := by
  cases r <;> simp [Outcome.map]

/-- Wrapping a blocking-call `Outcome` never alters the blocking case. -/
theorem outcome_map_blocks_iff {α β : Type} (f : α → β) (r : Outcome α) :
    r.map f = .blocks ↔ r = .blocks := by
  cases r <;> simp [Outcome.map]

theorem httpListener_mk_injective : Function.Injective HttpListener.mk :=
  fun _ _ h => congrArg HttpListener.inner h

theorem httpAcceptor_mk_injective : Function.Injective HttpAcceptor.mk :=
  fun _ _ h => congrArg HttpAcceptor.inner h

theorem httpStream_mk_injective : Function.Injective HttpStream.mk :=
  fun _ _ h => congrArg HttpStream.inner h

/-- Claim C3: every operation of the concrete TCP adapter returns `Ok` of
the (possibly wrapped) result exactly when the underlying TCP primitive
returns `Ok`, returns the identical error exactly when the primitive
fails, blocks exactly when the primitive blocks, and leaves the platform
state exactly as the primitive left it — no logic beyond error
propagation. -/
theorem http_adapter_propagates_tcp_results (env : TcpEnv) (w : World)
    (host : String) (port : Nat) (l : HttpListener) (a : HttpAcceptor)
    (s : HttpStream) (n : Nat) (msg : List Nat) :
    ((HttpListener.bind env w host port).1 = (TcpListener.bind env w host port).1 ∧
     (∀ tl, (HttpListener.bind env w host port).2 = .ok ⟨tl⟩ ↔
            (TcpListener.bind env w host port).2 = .ok tl) ∧
     (∀ e, (HttpListener.bind env w host port).2 = .error e ↔
           (TcpListener.bind env w host port).2 = .error e)) ∧
    ((HttpListener.listen env w l).1 = (TcpListener.listen env w l.inner).1 ∧
     (∀ ta, (HttpListener.listen env w l).2 = .ok ⟨ta⟩ ↔
            (TcpListener.listen env w l.inner).2 = .ok ta) ∧
     (∀ e, (HttpListener.listen env w l).2 = .error e ↔
           (TcpListener.listen env w l.inner).2 = .error e)) ∧
    (HttpListener.socket_name w l = TcpListener.socket_name w l.inner) ∧
    ((HttpAcceptor.accept w a).1 = (TcpAcceptor.accept w a.inner).1 ∧
     (∀ ts, (HttpAcceptor.accept w a).2 = .ok ⟨ts⟩ ↔
            (TcpAcceptor.accept w a.inner).2 = .ok ts) ∧
     (∀ e, (HttpAcceptor.accept w a).2 = .err e ↔
           (TcpAcceptor.accept w a.inner).2 = .err e) ∧
     ((HttpAcceptor.accept w a).2 = .blocks ↔
      (TcpAcceptor.accept w a.inner).2 = .blocks)) ∧
    (HttpAcceptor.close w a = TcpAcceptor.close_accept w a.inner) ∧
    (HttpStream.read w s n = TcpStream.read w s.inner n) ∧
    (HttpStream.write w s msg = TcpStream.write w s.inner msg) ∧
    (HttpStream.flush w s = TcpStream.flush w s.inner) ∧
    (HttpStream.peer_name w s = TcpStream.peer_name w s.inner) ∧
    ((HttpStream.connect env w host port).1 = (TcpStream.connect env w host port).1 ∧
     (∀ ts, (HttpStream.connect env w host port).2 = .ok ⟨ts⟩ ↔
            (TcpStream.connect env w host port).2 = .ok ts) ∧
     (∀ e, (HttpStream.connect env w host port).2 = .error e ↔
           (TcpStream.connect env w host port).2 = .error e)) := by
  refine ⟨⟨rfl, fun tl => ?_, fun e => ?_⟩,
          ⟨rfl, fun ta => ?_, fun e => ?_⟩, rfl,
          ⟨rfl, fun ts => ?_, fun e => ?_, ?_⟩, rfl, rfl, rfl, rfl, rfl,
          ⟨rfl, fun ts => ?_, fun e => ?_⟩⟩
  · exact except_map_ok_iff _ httpListener_mk_injective _ tl
  · exact except_map_error_iff _ _ e
  · exact except_map_ok_iff _ httpAcceptor_mk_injective _ ta
  · exact except_map_error_iff _ _ e
  · exact outcome_map_ok_iff _ httpStream_mk_injective _ ts
  · exact outcome_map_err_iff _ _ e
  · exact outcome_map_blocks_iff _ _
  · exact except_map_ok_iff _ httpStream_mk_injective _ ts
  · exact except_map_error_iff _ _ e

/-- Every `IoResult` is an `ok` or an `error` value — failure is a value
returned to the caller, never a process exit. -/
theorem ioResult_total {α : Type} (r : IoResult α) :
    (∃ v, r = .ok v) ∨ (∃ e, r = .error e) := by
  cases r with
  | error e => exact Or.inr ⟨e, rfl⟩
  | ok v => exact Or.inl ⟨v, rfl⟩

/-- Every blocking-call `Outcome` is an `ok`, an `err` value, or a call
that has not returned. -/
theorem outcome_total {α : Type} (r : Outcome α) :
    (∃ v, r = .ok v) ∨ (∃ e, r = .err e) ∨ r = .blocks := by
  cases r with
  | ok v => exact Or.inl ⟨v, rfl⟩
  | err e => exact Or.inr (Or.inl ⟨e, rfl⟩)
  | blocks => exact Or.inr (Or.inr rfl)

theorem tcpBind_sysCalls (env : TcpEnv) (w : World) (host : String)
    (port : Nat) :
    (TcpListener.bind env w host port).1.sysCalls = w.sysCalls + 1 := by
  unfold TcpListener.bind
  rcases h : env.bindError host port with _ | e <;> simp [h, World.bump]

theorem tcpListen_sysCalls (env : TcpEnv) (w : World) (l : TcpListener) :
    (TcpListener.listen env w l).1.sysCalls = w.sysCalls + 1 := by
  unfold TcpListener.listen
  rcases h : env.listenError l.addr with _ | e <;> simp [h, World.bump]

theorem tcpAccept_sysCalls (w : World) (a : TcpAcceptor) :
    (TcpAcceptor.accept w a).1.sysCalls = w.sysCalls + 1 := by
  unfold TcpAcceptor.accept
  rcases h : w.acceptors[a.id]? with _ | res
  · simp [h, World.bump]
  · rcases hp : res.pending with _ | ⟨peer, rest⟩ <;>
      by_cases hc : res.closed <;> simp [h, hp, hc, World.bump]

theorem tcpClose_sysCalls (w : World) (a : TcpAcceptor) :
    (TcpAcceptor.close_accept w a).1.sysCalls = w.sysCalls + 1 := by
  unfold TcpAcceptor.close_accept
  rcases h : w.acceptors[a.id]? with _ | res <;> simp [h, World.bump]

theorem tcpConnect_sysCalls (env : TcpEnv) (w : World) (host : String)
    (port : Nat) :
    (TcpStream.connect env w host port).1.sysCalls = w.sysCalls + 1 := by
  unfold TcpStream.connect
  rcases h : env.connectError host port with _ | e <;> simp [h, World.bump]

theorem tcpRead_sysCalls (w : World) (s : TcpStream) (n : Nat) :
    (TcpStream.read w s n).1.sysCalls = w.sysCalls + 1 := by
  unfold TcpStream.read
  rcases h : w.conns[s.id]? with _ | c
  · simp [h, World.bump]
  · by_cases hb : c.inBuf.isEmpty <;> simp [h, hb, World.bump]

theorem tcpWrite_sysCalls (w : World) (s : TcpStream) (msg : List Nat) :
    (TcpStream.write w s msg).1.sysCalls = w.sysCalls + 1 := by
  unfold TcpStream.write
  rcases h : w.conns[s.id]? with _ | c <;> simp [h, World.bump]

theorem tcpPeerName_sysCalls (w : World) (s : TcpStream) :
    (TcpStream.peer_name w s).1.sysCalls = w.sysCalls + 1 := by
  unfold TcpStream.peer_name
  rcases h : w.conns[s.id]? with _ | c <;> simp [h, World.bump]

/-- Claim C8: every adapter operation is total with respect to failure —
it returns its outcome (success, error value, or a still-blocked call) to
the caller rather than terminating — and invokes its underlying platform
primitive exactly once per call, so nothing retries or recovers
automatically. -/
theorem ops_surface_errors_single_call (env : TcpEnv) (w : World)
    (host : String) (port : Nat) (l : HttpListener) (a : HttpAcceptor)
    (s : HttpStream) (n : Nat) (msg : List Nat) :
    ((HttpListener.bind env w host port).1.sysCalls = w.sysCalls + 1) ∧
    ((HttpListener.listen env w l).1.sysCalls = w.sysCalls + 1) ∧
    ((HttpListener.socket_name w l).1.sysCalls = w.sysCalls + 1) ∧
    ((HttpAcceptor.accept w a).1.sysCalls = w.sysCalls + 1) ∧
    ((HttpAcceptor.close w a).1.sysCalls = w.sysCalls + 1) ∧
    ((HttpStream.read w s n).1.sysCalls = w.sysCalls + 1) ∧
    ((HttpStream.write w s msg).1.sysCalls = w.sysCalls + 1) ∧
    ((HttpStream.flush w s).1.sysCalls = w.sysCalls + 1) ∧
    ((HttpStream.peer_name w s).1.sysCalls = w.sysCalls + 1) ∧
    ((HttpStream.connect env w host port).1.sysCalls = w.sysCalls + 1) ∧
    ((∃ v, (HttpListener.bind env w host port).2 = .ok v) ∨
     (∃ e, (HttpListener.bind env w host port).2 = .error e)) ∧
    ((∃ v, (HttpListener.listen env w l).2 = .ok v) ∨
     (∃ e, (HttpListener.listen env w l).2 = .error e)) ∧
    ((∃ v, (HttpListener.socket_name w l).2 = .ok v) ∨
     (∃ e, (HttpListener.socket_name w l).2 = .error e)) ∧
    ((∃ v, (HttpAcceptor.accept w a).2 = .ok v) ∨
     (∃ e, (HttpAcceptor.accept w a).2 = .err e) ∨
     (HttpAcceptor.accept w a).2 = .blocks) ∧
    ((∃ v, (HttpAcceptor.close w a).2 = .ok v) ∨
     (∃ e, (HttpAcceptor.close w a).2 = .error e)) ∧
    ((∃ v, (HttpStream.read w s n).2 = .ok v) ∨
     (∃ e, (HttpStream.read w s n).2 = .err e) ∨
     (HttpStream.read w s n).2 = .blocks) ∧
    ((∃ v, (HttpStream.write w s msg).2 = .ok v) ∨
     (∃ e, (HttpStream.write w s msg).2 = .error e)) ∧
    ((∃ v, (HttpStream.flush w s).2 = .ok v) ∨
     (∃ e, (HttpStream.flush w s).2 = .error e)) ∧
    ((∃ v, (HttpStream.peer_name w s).2 = .ok v) ∨
     (∃ e, (HttpStream.peer_name w s).2 = .error e)) ∧
    ((∃ v, (HttpStream.connect env w host port).2 = .ok v) ∨
     (∃ e, (HttpStream.connect env w host port).2 = .error e)) :=
  ⟨tcpBind_sysCalls env w host port,
   tcpListen_sysCalls env w l.inner,
   rfl,
   tcpAccept_sysCalls w a.inner,
   tcpClose_sysCalls w a.inner,
   tcpRead_sysCalls w s.inner n,
   tcpWrite_sysCalls w s.inner msg,
   rfl,
   tcpPeerName_sysCalls w s.inner,
   tcpConnect_sysCalls env w host port,
   ioResult_total _, ioResult_total _, ioResult_total _,
   outcome_total _, ioResult_total _, outcome_total _,
   ioResult_total _, ioResult_total _, ioResult_total _, ioResult_total _⟩

/-! Helper lemmas for the frame claims: no primitive reads the
instrumentation counter, so running an operation from a world whose
counter was bumped returns the same result and leads to the same
observable state. -/

theorem tcpPeerName_world (w : World) (s : TcpStream) :
    (TcpStream.peer_name w s).1 = World.bump w := by
  rcases h : w.conns[s.id]? with _ | c <;> simp [TcpStream.peer_name, h]

theorem tcpBind_bump (env : TcpEnv) (w : World) (host : String) (port : Nat) :
    (TcpListener.bind env (World.bump w) host port).2 =
      (TcpListener.bind env w host port).2 ∧
    (TcpListener.bind env (World.bump w) host port).1.obs =
      (TcpListener.bind env w host port).1.obs := by
  rcases h : env.bindError host port with _ | e <;>
    simp [TcpListener.bind, h, World.bump, World.obs]

theorem tcpListen_bump (env : TcpEnv) (w : World) (l : TcpListener) :
    (TcpListener.listen env (World.bump w) l).2 =
      (TcpListener.listen env w l).2 ∧
    (TcpListener.listen env (World.bump w) l).1.obs =
      (TcpListener.listen env w l).1.obs := by
  rcases h : env.listenError l.addr with _ | e <;>
    simp [TcpListener.listen, h, World.bump, World.obs]

theorem tcpAccept_bump (w : World) (a : TcpAcceptor) :
    (TcpAcceptor.accept (World.bump w) a).2 = (TcpAcceptor.accept w a).2 ∧
    (TcpAcceptor.accept (World.bump w) a).1.obs =
      (TcpAcceptor.accept w a).1.obs := by
  rcases h : w.acceptors[a.id]? with _ | res
  · simp [TcpAcceptor.accept, h, World.bump, World.obs]
  · by_cases hc : res.closed
    · simp [TcpAcceptor.accept, h, hc, World.bump, World.obs]
    · rcases hp : res.pending with _ | ⟨peer, rest⟩ <;>
        simp [TcpAcceptor.accept, h, hc, hp, World.bump, World.obs]

theorem tcpClose_bump (w : World) (a : TcpAcceptor) :
    (TcpAcceptor.close_accept (World.bump w) a).2 =
      (TcpAcceptor.close_accept w a).2 ∧
    (TcpAcceptor.close_accept (World.bump w) a).1.obs =
      (TcpAcceptor.close_accept w a).1.obs := by
  rcases h : w.acceptors[a.id]? with _ | res <;>
    simp [TcpAcceptor.close_accept, h, World.bump, World.obs]

theorem tcpRead_bump (w : World) (s : TcpStream) (n : Nat) :
    (TcpStream.read (World.bump w) s n).2 = (TcpStream.read w s n).2 ∧
    (TcpStream.read (World.bump w) s n).1.obs =
      (TcpStream.read w s n).1.obs := by
  rcases h : w.conns[s.id]? with _ | c
  · simp [TcpStream.read, h, World.bump, World.obs]
  · by_cases hb : c.inBuf.isEmpty <;>
      simp [TcpStream.read, h, hb, World.bump, World.obs]

theorem tcpWrite_bump (w : World) (s : TcpStream) (msg : List Nat) :
    (TcpStream.write (World.bump w) s msg).2 = (TcpStream.write w s msg).2 ∧
    (TcpStream.write (World.bump w) s msg).1.obs =
      (TcpStream.write w s msg).1.obs := by
  rcases h : w.conns[s.id]? with _ | c <;>
    simp [TcpStream.write, h, World.bump, World.obs]

theorem tcpPeerName_bump (w : World) (s : TcpStream) :
    (TcpStream.peer_name (World.bump w) s).2 = (TcpStream.peer_name w s).2 ∧
    (TcpStream.peer_name (World.bump w) s).1.obs =
      (TcpStream.peer_name w s).1.obs := by
  rcases h : w.conns[s.id]? with _ | c <;>
    simp [TcpStream.peer_name, h, World.bump, World.obs]

theorem tcpConnect_bump (env : TcpEnv) (w : World) (host : String)
    (port : Nat) :
    (TcpStream.connect env (World.bump w) host port).2 =
      (TcpStream.connect env w host port).2 ∧
    (TcpStream.connect env (World.bump w) host port).1.obs =
      (TcpStream.connect env w host port).1.obs := by
  rcases h : env.connectError host port with _ | e <;>
    simp [TcpStream.connect, h, World.bump, World.obs]

/-- Claim C10: `socket_name` on a listener and `peer_name` on a stream
leave all observable state unchanged — although they take the handle
mutably, afterwards every operation (on any handle) returns the same
outcome and leads to the same observable platform state as if
`socket_name` or `peer_name` had not been called. -/
theorem socket_name_peer_name_frame (env : TcpEnv) (w : World)
    (l l₂ : HttpListener) (s s₂ : HttpStream) (a : HttpAcceptor)
    (n : Nat) (msg : List Nat) (host : String) (port : Nat) :
    ((HttpListener.socket_name w l).1.obs = w.obs) ∧
    ((HttpStream.peer_name w s).1.obs = w.obs) ∧
    ((HttpListener.socket_name w l).2 = .ok l.inner.addr) ∧
    ((HttpListener.bind env (HttpListener.socket_name w l).1 host port).2 =
       (HttpListener.bind env w host port).2) ∧
    ((HttpListener.bind env (HttpListener.socket_name w l).1 host port).1.obs =
       (HttpListener.bind env w host port).1.obs) ∧
    ((HttpListener.listen env (HttpListener.socket_name w l).1 l₂).2 =
       (HttpListener.listen env w l₂).2) ∧
    ((HttpListener.listen env (HttpListener.socket_name w l).1 l₂).1.obs =
       (HttpListener.listen env w l₂).1.obs) ∧
    ((HttpListener.socket_name (HttpListener.socket_name w l).1 l₂).2 =
       (HttpListener.socket_name w l₂).2) ∧
    ((HttpListener.socket_name (HttpListener.socket_name w l).1 l₂).1.obs =
       (HttpListener.socket_name w l₂).1.obs) ∧
    ((HttpAcceptor.accept (HttpListener.socket_name w l).1 a).2 =
       (HttpAcceptor.accept w a).2) ∧
    ((HttpAcceptor.accept (HttpListener.socket_name w l).1 a).1.obs =
       (HttpAcceptor.accept w a).1.obs) ∧
    ((HttpAcceptor.close (HttpListener.socket_name w l).1 a).2 =
       (HttpAcceptor.close w a).2) ∧
    ((HttpAcceptor.close (HttpListener.socket_name w l).1 a).1.obs =
       (HttpAcceptor.close w a).1.obs) ∧
    ((HttpStream.read (HttpListener.socket_name w l).1 s₂ n).2 =
       (HttpStream.read w s₂ n).2) ∧
    ((HttpStream.read (HttpListener.socket_name w l).1 s₂ n).1.obs =
       (HttpStream.read w s₂ n).1.obs) ∧
    ((HttpStream.write (HttpListener.socket_name w l).1 s₂ msg).2 =
       (HttpStream.write w s₂ msg).2) ∧
    ((HttpStream.write (HttpListener.socket_name w l).1 s₂ msg).1.obs =
       (HttpStream.write w s₂ msg).1.obs) ∧
    ((HttpStream.flush (HttpListener.socket_name w l).1 s₂).2 =
       (HttpStream.flush w s₂).2) ∧
    ((HttpStream.flush (HttpListener.socket_name w l).1 s₂).1.obs =
       (HttpStream.flush w s₂).1.obs) ∧
    ((HttpStream.peer_name (HttpListener.socket_name w l).1 s₂).2 =
       (HttpStream.peer_name w s₂).2) ∧
    ((HttpStream.peer_name (HttpListener.socket_name w l).1 s₂).1.obs =
       (HttpStream.peer_name w s₂).1.obs) ∧
    ((HttpStream.connect env (HttpListener.socket_name w l).1 host port).2 =
       (HttpStream.connect env w host port).2) ∧
    ((HttpStream.connect env (HttpListener.socket_name w l).1 host port).1.obs =
       (HttpStream.connect env w host port).1.obs) ∧
    ((HttpListener.bind env (HttpStream.peer_name w s).1 host port).2 =
       (HttpListener.bind env w host port).2) ∧
    ((HttpListener.bind env (HttpStream.peer_name w s).1 host port).1.obs =
       (HttpListener.bind env w host port).1.obs) ∧
    ((HttpListener.listen env (HttpStream.peer_name w s).1 l₂).2 =
       (HttpListener.listen env w l₂).2) ∧
    ((HttpListener.listen env (HttpStream.peer_name w s).1 l₂).1.obs =
       (HttpListener.listen env w l₂).1.obs) ∧
    ((HttpListener.socket_name (HttpStream.peer_name w s).1 l₂).2 =
       (HttpListener.socket_name w l₂).2) ∧
    ((HttpListener.socket_name (HttpStream.peer_name w s).1 l₂).1.obs =
       (HttpListener.socket_name w l₂).1.obs) ∧
    ((HttpAcceptor.accept (HttpStream.peer_name w s).1 a).2 =
       (HttpAcceptor.accept w a).2) ∧
    ((HttpAcceptor.accept (HttpStream.peer_name w s).1 a).1.obs =
       (HttpAcceptor.accept w a).1.obs) ∧
    ((HttpAcceptor.close (HttpStream.peer_name w s).1 a).2 =
       (HttpAcceptor.close w a).2) ∧
    ((HttpAcceptor.close (HttpStream.peer_name w s).1 a).1.obs =
       (HttpAcceptor.close w a).1.obs) ∧
    ((HttpStream.read (HttpStream.peer_name w s).1 s₂ n).2 =
       (HttpStream.read w s₂ n).2) ∧
    ((HttpStream.read (HttpStream.peer_name w s).1 s₂ n).1.obs =
       (HttpStream.read w s₂ n).1.obs) ∧
    ((HttpStream.write (HttpStream.peer_name w s).1 s₂ msg).2 =
       (HttpStream.write w s₂ msg).2) ∧
    ((HttpStream.write (HttpStream.peer_name w s).1 s₂ msg).1.obs =
       (HttpStream.write w s₂ msg).1.obs) ∧
    ((HttpStream.flush (HttpStream.peer_name w s).1 s₂).2 =
       (HttpStream.flush w s₂).2) ∧
    ((HttpStream.flush (HttpStream.peer_name w s).1 s₂).1.obs =
       (HttpStream.flush w s₂).1.obs) ∧
    ((HttpStream.peer_name (HttpStream.peer_name w s).1 s₂).2 =
       (HttpStream.peer_name w s₂).2) ∧
    ((HttpStream.peer_name (HttpStream.peer_name w s).1 s₂).1.obs =
       (HttpStream.peer_name w s₂).1.obs) ∧
    ((HttpStream.connect env (HttpStream.peer_name w s).1 host port).2 =
       (HttpStream.connect env w host port).2) ∧
    ((HttpStream.connect env (HttpStream.peer_name w s).1 host port).1.obs =
       (HttpStream.connect env w host port).1.obs) := by
  have hW2 : (HttpStream.peer_name w s).1 = World.bump w :=
    tcpPeerName_world w s.inner
  rw [show HttpStream.peer_name w s = TcpStream.peer_name w s.inner from rfl] at hW2 ⊢
  rw [show ∀ x : World, HttpListener.socket_name x l = (x.bump, Except.ok l.inner.addr) from fun _ => rfl]
  rw [hW2]
  exact ⟨rfl, rfl, rfl,
    congrArg (Except.map HttpListener.mk) (tcpBind_bump env w host port).1,
    (tcpBind_bump env w host port).2,
    congrArg (Except.map HttpAcceptor.mk) (tcpListen_bump env w l₂.inner).1,
    (tcpListen_bump env w l₂.inner).2,
    rfl, rfl,
    congrArg (Outcome.map HttpStream.mk) (tcpAccept_bump w a.inner).1,
    (tcpAccept_bump w a.inner).2,
    (tcpClose_bump w a.inner).1, (tcpClose_bump w a.inner).2,
    (tcpRead_bump w s₂.inner n).1, (tcpRead_bump w s₂.inner n).2,
    (tcpWrite_bump w s₂.inner msg).1, (tcpWrite_bump w s₂.inner msg).2,
    rfl, rfl,
    (tcpPeerName_bump w s₂.inner).1, (tcpPeerName_bump w s₂.inner).2,
    congrArg (Except.map HttpStream.mk) (tcpConnect_bump env w host port).1,
    (tcpConnect_bump env w host port).2,
    congrArg (Except.map HttpListener.mk) (tcpBind_bump env w host port).1,
    (tcpBind_bump env w host port).2,
    congrArg (Except.map HttpAcceptor.mk) (tcpListen_bump env w l₂.inner).1,
    (tcpListen_bump env w l₂.inner).2,
    rfl, rfl,
    congrArg (Outcome.map HttpStream.mk) (tcpAccept_bump w a.inner).1,
    (tcpAccept_bump w a.inner).2,
    (tcpClose_bump w a.inner).1, (tcpClose_bump w a.inner).2,
    (tcpRead_bump w s₂.inner n).1, (tcpRead_bump w s₂.inner n).2,
    (tcpWrite_bump w s₂.inner msg).1, (tcpWrite_bump w s₂.inner msg).2,
    rfl, rfl,
    (tcpPeerName_bump w s₂.inner).1, (tcpPeerName_bump w s₂.inner).2,
    congrArg (Except.map HttpStream.mk) (tcpConnect_bump env w host port).1,
    (tcpConnect_bump env w host port).2⟩

/-! Machinery for the acceptor-close claim: a step relation over the
platform state covering every adapter operation, and the invariant that a
closed listening resource stays closed. -/

/-- The listening resource at index `i` exists and is closed. -/
def World.closedAt (w : World) (i : Nat) : Prop :=
  ∃ res : AcceptorRes, w.acceptors[i]? = some res ∧ res.closed = true

/-- One adapter operation, of any kind on any handle, performed on the
platform state. -/
inductive NetStep (env : TcpEnv) : World → World → Prop
  | bind (w : World) (host : String) (port : Nat) :
      NetStep env w (HttpListener.bind env w host port).1
  | listen (w : World) (l : HttpListener) :
      NetStep env w (HttpListener.listen env w l).1
  | socket_name (w : World) (l : HttpListener) :
      NetStep env w (HttpListener.socket_name w l).1
  | accept (w : World) (a : HttpAcceptor) :
      NetStep env w (HttpAcceptor.accept w a).1
  | close (w : World) (a : HttpAcceptor) :
      NetStep env w (HttpAcceptor.close w a).1
  | read (w : World) (s : HttpStream) (n : Nat) :
      NetStep env w (HttpStream.read w s n).1
  | write (w : World) (s : HttpStream) (msg : List Nat) :
      NetStep env w (HttpStream.write w s msg).1
  | flush (w : World) (s : HttpStream) :
      NetStep env w (HttpStream.flush w s).1
  | peer_name (w : World) (s : HttpStream) :
      NetStep env w (HttpStream.peer_name w s).1
  | connect (w : World) (host : String) (port : Nat) :
      NetStep env w (HttpStream.connect env w host port).1

theorem lt_length_of_getElem?_some {α : Type} {l : List α} {i : Nat}
    {x : α} (h : l[i]? = some x) : i < l.length :=
  (List.getElem?_eq_some_iff.mp h).1

theorem closedAt_of_acceptors_eq {w w' : World}
    (hA : w'.acceptors = w.acceptors) {i : Nat} (h : w.closedAt i) :
    w'.closedAt i := by
  unfold World.closedAt at h ⊢
  rw [hA]
  exact h

theorem tcpBind_acceptors (env : TcpEnv) (w : World) (host : String)
    (port : Nat) :
    (TcpListener.bind env w host port).1.acceptors = w.acceptors := by
  rcases h : env.bindError host port with _ | e <;>
    simp [TcpListener.bind, h, World.bump]

theorem tcpConnect_acceptors (env : TcpEnv) (w : World) (host : String)
    (port : Nat) :
    (TcpStream.connect env w host port).1.acceptors = w.acceptors := by
  rcases h : env.connectError host port with _ | e <;>
    simp [TcpStream.connect, h, World.bump]

theorem tcpRead_acceptors (w : World) (s : TcpStream) (n : Nat) :
    (TcpStream.read w s n).1.acceptors = w.acceptors := by
  rcases h : w.conns[s.id]? with _ | c
  · simp [TcpStream.read, h, World.bump]
  · by_cases hb : c.inBuf.isEmpty <;> simp [TcpStream.read, h, hb, World.bump]

theorem tcpWrite_acceptors (w : World) (s : TcpStream) (msg : List Nat) :
    (TcpStream.write w s msg).1.acceptors = w.acceptors := by
  rcases h : w.conns[s.id]? with _ | c <;>
    simp [TcpStream.write, h, World.bump]

theorem tcpListen_preserves_closedAt (env : TcpEnv) (w : World)
    (l : TcpListener) (i : Nat) (h : w.closedAt i) :
    (TcpListener.listen env w l).1.closedAt i := by
  obtain ⟨res, hres, hcl⟩ := h
  have hlen : i < w.acceptors.length := lt_length_of_getElem?_some hres
  unfold TcpListener.listen
  rcases he : env.listenError l.addr with _ | e
  · refine ⟨res, ?_, hcl⟩
    show (w.acceptors ++ [⟨false, []⟩])[i]? = some res
    rw [List.getElem?_append_left hlen]
    exact hres
  · exact ⟨res, hres, hcl⟩

theorem tcpAccept_preserves_closedAt (w : World) (a : TcpAcceptor)
    (i : Nat) (h : w.closedAt i) : (TcpAcceptor.accept w a).1.closedAt i := by
  obtain ⟨res, hres, hcl⟩ := h
  unfold TcpAcceptor.accept
  rcases hg : w.acceptors[a.id]? with _ | res₀
  · exact ⟨res, hres, hcl⟩
  · simp only [hg]
    by_cases hc : res₀.closed
    · rw [if_pos hc]
      exact ⟨res, hres, hcl⟩
    · rw [if_neg hc]
      rcases hp : res₀.pending with _ | ⟨peer, rest⟩
      · exact ⟨res, hres, hcl⟩
      · by_cases hij : a.id = i
        · subst hij
          rw [hres] at hg
          injection hg with hg'
          subst hg'
          exact absurd hcl hc
        · refine ⟨res, ?_, hcl⟩
          show (w.acceptors.set a.id _)[i]? = some res
          rw [List.getElem?_set_ne hij]
          exact hres

theorem tcpClose_preserves_closedAt (w : World) (a : TcpAcceptor)
    (i : Nat) (h : w.closedAt i) :
    (TcpAcceptor.close_accept w a).1.closedAt i := by
  obtain ⟨res, hres, hcl⟩ := h
  unfold TcpAcceptor.close_accept
  rcases hg : w.acceptors[a.id]? with _ | res₀
  · exact ⟨res, hres, hcl⟩
  · simp only [hg]
    by_cases hij : a.id = i
    · subst hij
      rw [hres] at hg
      injection hg with hg'
      subst hg'
      refine ⟨{res with closed := true}, ?_, rfl⟩
      show (w.acceptors.set a.id _)[a.id]? = _
      rw [List.getElem?_set_self (lt_length_of_getElem?_some hres)]
    · refine ⟨res, ?_, hcl⟩
      show (w.acceptors.set a.id _)[i]? = some res
      rw [List.getElem?_set_ne hij]
      exact hres

theorem netStep_preserves_closedAt {env : TcpEnv} {w w' : World}
    (hs : NetStep env w w') (i : Nat) (h : w.closedAt i) : w'.closedAt i := by
  cases hs with
  | bind host port =>
      exact closedAt_of_acceptors_eq (tcpBind_acceptors env w host port) h
  | listen l => exact tcpListen_preserves_closedAt env w l.inner i h
  | socket_name l => exact h
  | accept a => exact tcpAccept_preserves_closedAt w a.inner i h
  | close a => exact tcpClose_preserves_closedAt w a.inner i h
  | read s n =>
      exact closedAt_of_acceptors_eq (tcpRead_acceptors w s.inner n) h
  | write s msg =>
      exact closedAt_of_acceptors_eq (tcpWrite_acceptors w s.inner msg) h
  | flush s => exact h
  | peer_name s =>
      exact closedAt_of_acceptors_eq
        (congrArg World.acceptors (tcpPeerName_world w s.inner)) h
  | connect host port =>
      exact closedAt_of_acceptors_eq (tcpConnect_acceptors env w host port) h

theorem reachable_preserves_closedAt {env : TcpEnv} {w w' : World}
    (h : Relation.ReflTransGen (NetStep env) w w') (i : Nat)
    (hc : w.closedAt i) : w'.closedAt i := by
  induction h with
  | refl => exact hc
  | tail _ hstep ih => exact netStep_preserves_closedAt hstep i ih

/-- Accepting on any handle to a closed listening resource returns the
distinguished closed error. -/
theorem tcpAccept_closed {w : World} {a : TcpAcceptor}
    (h : w.closedAt a.id) :
    (TcpAcceptor.accept w a).2 = .err acceptorClosedError := by
  obtain ⟨res, hres, hcl⟩ := h
  unfold TcpAcceptor.accept
  simp only [hres]
  rw [if_pos hcl]

theorem tcpClose_result (w : World) (a : TcpAcceptor) :
    (TcpAcceptor.close_accept w a).2 = .ok () := by
  rcases hg : w.acceptors[a.id]? with _ | res <;>
    simp [TcpAcceptor.close_accept, hg]

theorem tcpClose_conns (w : World) (a : TcpAcceptor) :
    (TcpAcceptor.close_accept w a).1.conns = w.conns := by
  rcases hg : w.acceptors[a.id]? with _ | res <;>
    simp [TcpAcceptor.close_accept, hg, World.bump]

theorem tcpClose_closedAt (w : World) (a : TcpAcceptor)
    (h : a.id < w.acceptors.length) :
    (TcpAcceptor.close_accept w a).1.closedAt a.id := by
  unfold TcpAcceptor.close_accept
  rcases hg : w.acceptors[a.id]? with _ | res
  · rw [List.getElem?_eq_none_iff] at hg
    omega
  · simp only [hg]
    refine ⟨{res with closed := true}, ?_, rfl⟩
    show (w.acceptors.set a.id _)[a.id]? = _
    rw [List.getElem?_set_self h]

/-- Closing an already-closed acceptor changes nothing observable: the
resource list and the connections are exactly those after the first
close. -/
theorem tcpClose_idem_obs (w : World) (a : TcpAcceptor)
    (h : a.id < w.acceptors.length) :
    (TcpAcceptor.close_accept (TcpAcceptor.close_accept w a).1 a).1.obs =
      (TcpAcceptor.close_accept w a).1.obs := by
  rcases hg : w.acceptors[a.id]? with _ | res
  · rw [List.getElem?_eq_none_iff] at hg
    omega
  · have h₁ :
        (TcpAcceptor.close_accept w a).1 =
          { w.bump with
            acceptors := w.acceptors.set a.id { res with closed := true } } := by
      simp [TcpAcceptor.close_accept, hg]
    rw [h₁]
    have h₂ :
        (w.acceptors.set a.id { res with closed := true })[a.id]? =
          some { res with closed := true } :=
      List.getElem?_set_self (by simpa using h)
    simp [TcpAcceptor.close_accept, h₂, World.bump, World.obs, List.set_set]

/-- Claim C4: after `close()` on an acceptor, every current and future
`accept()` on that acceptor or on any duplicated handle of it returns the
distinguished closed error (not a transient I/O error); `close()` succeeds
and is idempotent; streams already accepted are unaffected. -/
theorem acceptor_close_closes_all_handles (env : TcpEnv) (w : World)
    (a : HttpAcceptor) (h : a.inner.id < w.acceptors.length) :
    (HttpAcceptor.close w a).2 = .ok () ∧
    HttpAcceptor.clone a = a ∧
    (HttpAcceptor.close w a).1.conns = w.conns ∧
    (∀ w₂ : World,
      Relation.ReflTransGen (NetStep env) (HttpAcceptor.close w a).1 w₂ →
        ∀ a' : HttpAcceptor, a'.inner.id = a.inner.id →
          (HttpAcceptor.accept w₂ a').2 = .err acceptorClosedError) ∧
    (HttpAcceptor.close (HttpAcceptor.close w a).1 a).2 = .ok () ∧
    (HttpAcceptor.close (HttpAcceptor.close w a).1 a).1.obs =
      (HttpAcceptor.close w a).1.obs := by
  refine ⟨tcpClose_result w a.inner, rfl, tcpClose_conns w a.inner,
          ?_, tcpClose_result _ a.inner, tcpClose_idem_obs w a.inner h⟩
  intro w₂ hreach a' hid
  have hc₀ : (TcpAcceptor.close_accept w a.inner).1.closedAt a.inner.id :=
    tcpClose_closedAt w a.inner h
  have hc₂ : w₂.closedAt a.inner.id :=
    reachable_preserves_closedAt hreach a.inner.id hc₀
  exact (outcome_map_err_iff HttpStream.mk _ _).mpr
    (tcpAccept_closed (show w₂.closedAt a'.inner.id by rw [hid]; exact hc₂))

/-- Witness for the acceptor-close claim at a concrete world with one
open listening resource. -/
theorem acceptor_close_closes_all_handles_witness :
    ((HttpAcceptor.mk ⟨0⟩).inner.id <
        (World.mk [⟨false, []⟩] [] 0).acceptors.length) ∧
    ((HttpAcceptor.close (World.mk [⟨false, []⟩] [] 0)
        (HttpAcceptor.mk ⟨0⟩)).2 = .ok () ∧
     HttpAcceptor.clone (HttpAcceptor.mk ⟨0⟩) = HttpAcceptor.mk ⟨0⟩ ∧
     (HttpAcceptor.close (World.mk [⟨false, []⟩] [] 0)
        (HttpAcceptor.mk ⟨0⟩)).1.conns = (World.mk [⟨false, []⟩] [] 0).conns ∧
     (∀ w₂ : World,
       Relation.ReflTransGen (NetStep defaultTcpEnv)
           (HttpAcceptor.close (World.mk [⟨false, []⟩] [] 0)
             (HttpAcceptor.mk ⟨0⟩)).1 w₂ →
         ∀ a' : HttpAcceptor, a'.inner.id = (HttpAcceptor.mk ⟨0⟩).inner.id →
           (HttpAcceptor.accept w₂ a').2 = .err acceptorClosedError) ∧
     (HttpAcceptor.close
        (HttpAcceptor.close (World.mk [⟨false, []⟩] [] 0)
          (HttpAcceptor.mk ⟨0⟩)).1 (HttpAcceptor.mk ⟨0⟩)).2 = .ok () ∧
     (HttpAcceptor.close
        (HttpAcceptor.close (World.mk [⟨false, []⟩] [] 0)
          (HttpAcceptor.mk ⟨0⟩)).1 (HttpAcceptor.mk ⟨0⟩)).1.obs =
       (HttpAcceptor.close (World.mk [⟨false, []⟩] [] 0)
         (HttpAcceptor.mk ⟨0⟩)).1.obs) :=
  ⟨by decide,
   acceptor_close_closes_all_handles defaultTcpEnv
     (World.mk [⟨false, []⟩] [] 0) (HttpAcceptor.mk ⟨0⟩) (by decide)⟩

/-- Claim C6: for a valid (host, port) pair, `bind` then `listen` then
`socket_name` reports an address whose port equals the requested port, or
a valid ephemeral port when port 0 was requested. -/
theorem bind_listen_socket_name_port (env : TcpEnv) (w w₁ : World)
    (host : String) (port : Nat) (l : HttpListener) (acc : HttpAcceptor)
    (hport : port < 65536)
    (heph₁ : 0 < env.ephemeralPort host)
    (heph₂ : env.ephemeralPort host < 65536)
    (hbind : HttpListener.bind env w host port = (w₁, Except.ok l))
    (hlisten : (HttpListener.listen env w₁ l).2 = Except.ok acc) :
    ∃ p : Nat,
      (∀ w' : World,
        HttpListener.socket_name w' l = (w'.bump, Except.ok ⟨host, p⟩)) ∧
      (port ≠ 0 → p = port) ∧
      (port = 0 → 0 < p ∧ p < 65536) ∧
      p < 65536 := by
  rcases hbe : env.bindError host port with _ | e
  · have hb :
        ((World.bump w,
          Except.ok (HttpListener.mk
            ⟨host, if port = 0 then env.ephemeralPort host else port⟩)) :
          World × IoResult HttpListener) =
          (w₁, Except.ok l) := by
      rw [← hbind]
      simp [HttpListener.bind, TcpListener.bind, hbe, Except.map]
    have hl :
        l = HttpListener.mk
          ⟨host, if port = 0 then env.ephemeralPort host else port⟩ := by
      have h2 := congrArg Prod.snd hb
      simp only [Except.ok.injEq] at h2
      exact h2.symm
    subst hl
    refine ⟨if port = 0 then env.ephemeralPort host else port,
      fun w' => rfl, fun h0 => if_neg h0,
      fun h0 => by rw [if_pos h0]; exact ⟨heph₁, heph₂⟩, ?_⟩
    by_cases h0 : port = 0
    · rw [if_pos h0]
      exact heph₂
    · rw [if_neg h0]
      exact hport
  · exfalso
    have hb :
        (World.bump w,
          (Except.error e : IoResult TcpListener).map HttpListener.mk) =
          (w₁, Except.ok l) := by
      rw [← hbind]
      simp [HttpListener.bind, TcpListener.bind, hbe]
    have h2 := congrArg Prod.snd hb
    simp [Except.map] at h2

/-- Witness for the bind/listen/socket_name claim at host 127.0.0.1 with
the ephemeral port 0 requested. -/
theorem bind_listen_socket_name_port_witness :
    ((0 : Nat) < 65536) ∧
    (0 < defaultTcpEnv.ephemeralPort "127.0.0.1") ∧
    (defaultTcpEnv.ephemeralPort "127.0.0.1" < 65536) ∧
    (HttpListener.bind defaultTcpEnv (World.mk [] [] 0) "127.0.0.1" 0 =
      (World.mk [] [] 1,
        Except.ok (HttpListener.mk ⟨"127.0.0.1", 50000⟩))) ∧
    ((HttpListener.listen defaultTcpEnv (World.mk [] [] 1)
        (HttpListener.mk ⟨"127.0.0.1", 50000⟩)).2 =
      Except.ok (HttpAcceptor.mk ⟨0⟩)) ∧
    (∃ p : Nat,
      (∀ w' : World,
        HttpListener.socket_name w' (HttpListener.mk ⟨"127.0.0.1", 50000⟩) =
          (w'.bump, Except.ok ⟨"127.0.0.1", p⟩)) ∧
      ((0 : Nat) ≠ 0 → p = 0) ∧
      ((0 : Nat) = 0 → 0 < p ∧ p < 65536) ∧
      p < 65536) :=
  ⟨by decide, by decide, by decide, rfl, rfl,
   bind_listen_socket_name_port defaultTcpEnv (World.mk [] [] 0)
     (World.mk [] [] 1) "127.0.0.1" 0
     (HttpListener.mk ⟨"127.0.0.1", 50000⟩) (HttpAcceptor.mk ⟨0⟩)
     (by decide) (by decide) (by decide) rfl rfl⟩

end HyperNet
